import Mathlib

/-!
Verification development for the `boudoir-comfyui-nodes` browser extensions
(`powerLoraWidget.js`, `ollamaEnhancer.js` and the two companion widget files).

The JavaScript is UI glue around a handful of pure state transitions:
  * a per-node row store persisted as a JSON string (`parseLoraData` /
    `syncToWidget` in `powerLoraWidget.js`),
  * an index-keyed trigger-display map mutated by the add/delete row handlers,
  * two module-level memoization caches (`triggerCache`, `loraCache`) fed by
    network fetches (`fetchTriggerWord`, `fetchLorasInFolder`),
  * a dropdown filter (`renderItems` inside `showLoraDropdown`),
  * the strength-field change handler (`parseFloat(v) || 1.0`),
  * the prompt search entry point (`performSearch`).

We embed each of these as an explicit Lean function.  Host interactions are
modelled as follows:
  * `JSON.stringify` / `JSON.parse` are treated as the canonical bijection
    between JSON values and their texts; a persisted text is therefore
    represented by `StoredText`: either absent/empty, malformed (rejected by
    `JSON.parse`), or well-formed with its parse tree `Json`.  The literal
    string test `value === "[]"` in `parseLoraData` is embedded as the test
    against the parse tree `Json.arr []`, justified because `JSON.stringify`
    is injective and maps exactly the empty array to the text `"[]"`; for a
    non-canonical spelling of the empty array the source falls through to
    `JSON.parse` and produces the same value, so the outcomes agree.
  * network responses are passed in as explicit oracle values (one per
    potential request), and each fetch function reports whether it actually
    issued a request;
  * JavaScript objects used as string- or index-keyed maps become association
    lists with first-match lookup (prototype-chain inheritance of `{}` is
    abstracted away);
  * JavaScript numbers are modelled exactly (ℚ plus NaN/±Infinity where the
    source can produce them); double rounding is abstracted;
  * `toLowerCase`, `trim` and `includes` are modelled character-wise, which
    agrees with JavaScript on ASCII data.
-/

set_option autoImplicit false

/-- JSON values (the image of `JSON.parse`).  Numbers are modelled as exact
rationals: every finite double is rational, and `JSON.parse ∘ JSON.stringify`
is the identity on finite doubles. -/
inductive Json where
  | null
  | bool (b : Bool)
  | num (q : ℚ)
  | str (s : String)
  | arr (elems : List Json)
  | obj (fields : List (String × Json))

/-- One row of the Power LoRA widget, as created by the add-button handler
`node.loraRows.push({ lora: "", strength: 1.0, on: true })`. -/
structure Row where
  lora : String
  strength : ℚ
  «on» : Bool
deriving DecidableEq, Repr

/-- The JSON object `JSON.stringify` produces for one row: keys in insertion
order `lora`, `strength`, `on`. -/
def rowToJson (r : Row) : Json :=
  .obj [("lora", .str r.lora), ("strength", .num r.strength), ("on", .bool r.«on»)]

/-- `syncToWidget` (powerLoraWidget.js:271-279) writes
`JSON.stringify(node.loraRows)` into the hidden `lora_data` widget.  We track
the parse tree of that text. -/
def syncToWidget (rows : List Row) : Json :=
  .arr (rows.map rowToJson)

/-- The state of the persisted `lora_data` text as seen by `parseLoraData`:
the widget may be missing or hold a falsy value (`absent`), hold a non-empty
text rejected by `JSON.parse` (`malformed`), or hold a text that parses to a
JSON value. -/
inductive StoredText where
  | absent
  | malformed
  | wellFormed (j : Json)

/-- `parseLoraData` (powerLoraWidget.js:256-269).  `!widget?.value` and the
literal test `widget.value === "[]"` short-circuit to the empty row list; a
`JSON.parse` failure is caught, logged, and also resets to the empty list;
otherwise the parsed value is installed verbatim as `node.loraRows` (no shape
validation). -/
def parseLoraData : StoredText → Json
  | .absent => .arr []
  | .malformed => .arr []
  | .wellFormed (.arr []) => .arr []
  | .wellFormed j => j

/-- Decode one JSON value back into a `Row`; inverts `rowToJson`.  Used to
state the round-trip identity at the `Row` level. -/
def rowOfJson : Json → Option Row
  | .obj [("lora", .str l), ("strength", .num q), ("on", .bool b)] =>
      some { lora := l, strength := q, «on» := b }
  | _ => none

/-- Decode a list of JSON values into rows, failing if any element fails. -/
def decodeRows : List Json → Option (List Row)
  | [] => some []
  | j :: rest =>
    match rowOfJson j, decodeRows rest with
    | some r, some rs => some (r :: rs)
    | _, _ => none

/-- Decode a JSON value into a row list (it must be an array of row
objects). -/
def rowsOfJson : Json → Option (List Row)
  | .arr js => decodeRows js
  | _ => none

/-- First-match lookup in an association list, the embedding of reading a
key from a plain JavaScript object used as a map. -/
def alGet {α β : Type} [BEq α] : List (α × β) → α → Option β
  | [], _ => none
  | (k, v) :: rest, a => bif k == a then some v else alGet rest a

/-- Write a key (object property assignment).  With first-match lookup,
prepending realises replacement. -/
def alSet {α β : Type} (m : List (α × β)) (k : α) (v : β) : List (α × β) :=
  (k, v) :: m

/-- `delete obj[k]`: drop every binding of the key. -/
def alErase {α β : Type} [BEq α] (m : List (α × β)) (k : α) : List (α × β) :=
  m.filter (fun p => !(p.1 == k))

/-- The text shown in a row's trigger badge,
`node.triggerDisplays[index] || ""` (powerLoraWidget.js:373): an absent key
reads as `undefined` and the empty string is falsy, so both display as `""`. -/
def displayAt (td : List (Nat × String)) (i : Nat) : String :=
  (alGet td i).getD ""

/-- The row pushed by the add-button handler (powerLoraWidget.js:298):
`{ lora: "", strength: 1.0, on: true }`. -/
def defaultRow : Row :=
  { lora := "", strength := 1, «on» := true }

/-- `addBtn.onclick` (powerLoraWidget.js:297-302): appends a default row.
The trigger-display map is not touched. -/
def addRow (rows : List Row) : List Row :=
  rows ++ [defaultRow]

/-- `deleteBtn.onclick` (powerLoraWidget.js:384-390):
`node.loraRows.splice(index, 1)` removes the row at `index`, and
`delete node.triggerDisplays[index]` drops the display entry keyed to that
index.  Entries at other (in particular larger) indices are not reindexed. -/
def removeRow (rows : List Row) (td : List (Nat × String)) (index : Nat) :
    List Row × List (Nat × String) :=
  (rows.eraseIdx index, alErase td index)

/-- `removeRow` at `index` immediately followed by the add button: the state
the new row is rendered from.  The new row sits at the end of the list. -/
def removeThenAdd (rows : List Row) (td : List (Nat × String)) (index : Nat) :
    List Row × List (Nat × String) :=
  let p := removeRow rows td index
  (addRow p.1, p.2)

/-- `String.prototype.trim`, character-wise over the underlying list (agrees
with JavaScript on ASCII whitespace).  Defined structurally so that concrete
instances reduce inside the kernel. -/
def jsTrim (s : String) : String :=
  ⟨List.reverse ((List.reverse (s.toList.dropWhile Char.isWhitespace)).dropWhile
    Char.isWhitespace)⟩

/-- Outcome of the `/boudoir/lora-trigger` POST as observed by
`fetchTriggerWord`: a 2xx response with the parsed JSON's optional
`trigger_word` field, a non-ok response, or a thrown fetch/JSON error. -/
inductive TriggerResp where
  | ok (trigger_word : Option String)
  | notOk
  | err

/-- `fetchTriggerWord` (powerLoraWidget.js:499-532; the copy in the
Multi-LoRA widget file is identical in this logic).  Arguments: the module
cache `triggerCache`, the node's `triggerDisplays`, the row index, the LoRA
name, and the network oracle for the (at most one) request.  Returns the new
cache, the new display map, and whether a network request was issued.
`if (triggerCache[loraName])` is a truthiness test: an absent key or a cached
empty string both fail it.  Only a truthy (non-empty) `data.trigger_word` is
trimmed and cached. -/
def fetchTriggerWord (cache : List (String × String)) (td : List (Nat × String))
    (index : Nat) (loraName : String) (resp : TriggerResp) :
    List (String × String) × List (Nat × String) × Bool :=
  if loraName = "" ∨ loraName = "None" then
    (cache, alSet td index "", false)
  else if ((alGet cache loraName).getD "") ≠ "" then
    (cache, alSet td index ((alGet cache loraName).getD ""), false)
  else
    match resp with
    | .ok (some tw) =>
      if tw ≠ "" then
        (alSet cache loraName (jsTrim tw), alSet td index (jsTrim tw), true)
      else
        (cache, td, true)
    | .ok none => (cache, td, true)
    | .notOk => (cache, td, true)
    | .err => (cache, td, true)

/-- Two consecutive `fetchTriggerWord` calls for the same name and index,
with one network oracle per potential request; returns the final cache and
display map and the total number of network requests issued. -/
def twoFetches (cache : List (String × String)) (td : List (Nat × String))
    (index : Nat) (loraName : String) (r1 r2 : TriggerResp) :
    List (String × String) × List (Nat × String) × Nat :=
  let s1 := fetchTriggerWord cache td index loraName r1
  let s2 := fetchTriggerWord s1.1 s1.2.1 index loraName r2
  (s2.1, s2.2.1, s1.2.2.toNat + s2.2.2.toNat)

/-- Outcome of the `/boudoir/loras-in-folder` GET as observed by
`fetchLorasInFolder`: a response whose parsed JSON has an optional `loras`
field, or a thrown fetch/JSON error. -/
inductive FolderResp where
  | ok (loras : Option (List String))
  | err

/-- `fetchLorasInFolder` (ollamaEnhancer.js:128-142).  Returns the result
list, the new module cache `loraCache`, and whether a network request was
issued.  The guard `if (loraCache[folder])` tests truthiness, but every
cached value is an array and arrays (including `[]`) are truthy, so the
guard is equivalent to key presence.  On success the code stores
`data.loras || []` in the cache unconditionally; on a thrown error it
returns `[]` without caching. -/
def fetchLorasInFolder (cache : List (String × List String)) (folder : String)
    (resp : FolderResp) :
    List String × List (String × List String) × Bool :=
  match alGet cache folder with
  | some cached => (cached, cache, false)
  | none =>
    match resp with
    | .ok loras =>
      let v := loras.getD []
      (v, alSet cache folder v, true)
    | .err => ([], cache, true)

/-- Two consecutive `fetchLorasInFolder` calls for the same folder; returns
the final cache and the total number of requests issued. -/
def twoFolderFetches (cache : List (String × List String)) (folder : String)
    (r1 r2 : FolderResp) :
    List String × List (String × List String) × Nat :=
  let s1 := fetchLorasInFolder cache folder r1
  let s2 := fetchLorasInFolder s1.2.1 folder r2
  (s2.1, s2.2.1, s1.2.2.toNat + s2.2.2.toNat)

/-- `String.prototype.toLowerCase`, character-wise over the underlying list
(agrees with JavaScript on ASCII data). -/
def jsToLower (s : String) : String :=
  ⟨s.toList.map Char.toLower⟩

/-- Does the first character list start with the second? -/
def startsWithChars : List Char → List Char → Bool
  | _, [] => true
  | [], _ :: _ => false
  | c :: cs, d :: ds => c == d && startsWithChars cs ds

/-- Does the first character list contain the second as a contiguous run? -/
def hasSubstringChars : List Char → List Char → Bool
  | [], sub => startsWithChars [] sub
  | l@(_ :: cs), sub => startsWithChars l sub || hasSubstringChars cs sub

/-- `String.prototype.includes`. -/
def jsIncludes (s sub : String) : Bool :=
  hasSubstringChars s.toList sub.toList

/-- The visible candidate items of the LoRA dropdown, excluding the sentinel
`"None"` entry, as built by `renderItems` inside `showLoraDropdown`
(powerLoraWidget.js:416-468): the candidates whose lowercased text contains
the lowercased filter, in order, capped by `filtered.slice(0, 50)`.  When
more than 50 match, an extra non-selectable "... N more" indicator row is
appended (not part of this list). -/
def renderItems (loraList : List String) (filter : String) : List String :=
  let filterLower := jsToLower filter
  let filtered := loraList.filter (fun lora => jsIncludes (jsToLower lora) filterLower)
  filtered.take 50

/-- A JavaScript number as produced by `parseFloat`: NaN, an infinity, or a
finite value (modelled exactly as a rational; double rounding abstracted). -/
inductive JNum where
  | nan
  | posInf
  | negInf
  | fin (q : ℚ)
deriving DecidableEq, Repr

/-- Value of a list of ASCII digits. -/
def digitsVal (ds : List Char) : Nat :=
  ds.foldl (fun n c => 10 * n + (c.toNat - 48)) 0

/-- `parseFloat` (ECMA-262): skip leading whitespace, optional sign, then the
longest prefix that is `Infinity` or a decimal literal
(`digits [. digits] [exponent]` or `. digits [exponent]`); NaN when no such
prefix exists.  An incomplete exponent (no digits after `e`/`E±`) is not part
of the longest valid prefix and is ignored. -/
def parseFloat (s : String) : JNum :=
  let cs := s.toList.dropWhile Char.isWhitespace
  let signedTail : ℚ × List Char :=
    match cs with
    | '-' :: rest => (-1, rest)
    | '+' :: rest => (1, rest)
    | _ => (1, cs)
  let sign := signedTail.1
  let cs1 := signedTail.2
  if startsWithChars cs1 "Infinity".toList then
    if sign = 1 then .posInf else .negInf
  else
    let intPart := cs1.takeWhile Char.isDigit
    let cs2 := cs1.dropWhile Char.isDigit
    let fracTail : List Char × List Char :=
      match cs2 with
      | '.' :: rest => (rest.takeWhile Char.isDigit, rest.dropWhile Char.isDigit)
      | _ => ([], cs2)
    let fracPart := fracTail.1
    let cs3 := fracTail.2
    if intPart = [] ∧ fracPart = [] then .nan
    else
      let mant : ℚ :=
        (digitsVal intPart : ℚ) + (digitsVal fracPart : ℚ) / (10 : ℚ) ^ fracPart.length
      let expVal : ℤ :=
        match cs3 with
        | e :: rest =>
          if e == 'e' || e == 'E' then
            let expTail : ℤ × List Char :=
              match rest with
              | '-' :: r => (-1, r)
              | '+' :: r => (1, r)
              | _ => (1, rest)
            let eDigits := expTail.2.takeWhile Char.isDigit
            if eDigits = [] then 0 else expTail.1 * (digitsVal eDigits : ℤ)
          else 0
        | [] => 0
      .fin (sign * mant * (10 : ℚ) ^ expVal)

/-- JavaScript truthiness of a number value: NaN and ±0 are falsy, every
other number (including the infinities) is truthy. -/
def jsFalsyNum : JNum → Bool
  | .nan => true
  | .fin q => q == 0
  | .posInf => false
  | .negInf => false

/-- The strength field's change handler (powerLoraWidget.js:363-366):
`row.strength = parseFloat(e.target.value) || 1.0`. -/
def strengthOnChange (s : String) : JNum :=
  if jsFalsyNum (parseFloat s) then .fin 1 else parseFloat s

/-- One search result row, as consumed by the results dialog and
`selectPrompt`. -/
structure SearchPrompt where
  id : Nat
  category : String
  text : String
  use_count : Nat
deriving DecidableEq, Repr

/-- Outcome of the `/boudoir/prompt-search` GET as observed by
`performSearch`: parsed JSON with a `success` flag and an optional `prompts`
array, or a thrown fetch/JSON error with its message. -/
inductive SearchResp where
  | ok (success : Bool) (prompts : Option (List SearchPrompt))
  | err (message : String)

/-- The dialog `performSearch` ends in: the "Please enter a search term"
dialog, the "No prompts found" dialog, a results dialog, or the error
dialog. -/
inductive SearchOutcome where
  | enterTerm
  | noPrompts
  | found (prompts : List SearchPrompt)
  | fetchError (message : String)
deriving DecidableEq, Repr

/-- `performSearch` (prompt-search widget file, lines 142-168).  Returns the
outcome and whether a network request was issued.  `if (!query.trim())`
short-circuits before any request; otherwise
`if (!data.success || !data.prompts?.length)` yields the "No prompts found"
outcome (an absent or empty `prompts` array is falsy via `?.length`). -/
def performSearch (query : String) (_category : String) (resp : SearchResp) :
    SearchOutcome × Bool :=
  if jsTrim query = "" then
    (.enterTerm, false)
  else
    match resp with
    | .err m => (.fetchError m, true)
    | .ok success prompts =>
      let ps := prompts.getD []
      if !success || ps.isEmpty then (.noPrompts, true)
      else (.found ps, true)

/-! ## Helper lemmas -/

theorem alGet_alSet_self {α β : Type} [BEq α] [LawfulBEq α]
    (m : List (α × β)) (k : α) (v : β) :
    alGet (alSet m k v) k = some v := by
  simp [alGet, alSet]

theorem alGet_alErase {α β : Type} [DecidableEq α] [BEq α] [LawfulBEq α]
    (m : List (α × β)) (k a : α) :
    alGet (alErase m k) a = if a = k then none else alGet m a := by
  induction m with
  | nil =>
    simp only [alErase, List.filter_nil, alGet]
    split <;> rfl
  | cons p rest ih =>
    simp only [alErase, List.filter_cons] at *
    by_cases hk : p.1 == k
    · simp only [hk, Bool.not_true, if_false]
      by_cases ha : a = k
      · subst ha
        simpa using ih
      · have hpa : (p.1 == a) = false := by
          rw [beq_eq_false_iff_ne]
          intro hpa
          exact ha (by rw [← hpa, eq_of_beq hk])
        simp [ih, ha, alGet, hpa]
    · simp only [Bool.not_eq_true] at hk
      simp only [hk, Bool.not_false, if_true, alGet]
      by_cases ha : a = k
      · subst ha
        simp [hk, ih]
      · simp [ha, ih]

theorem decodeRows_map_rowToJson (rows : List Row) :
    decodeRows (rows.map rowToJson) = some rows := by
  induction rows with
  | nil => rfl
  | cons r rs ih =>
    simp only [List.map_cons, decodeRows, rowToJson, rowOfJson, ih]

theorem jsFalsyNum_eq_true_iff (v : JNum) :
    jsFalsyNum v = true ↔ v = .nan ∨ v = .fin 0 := by
  cases v with
  | nan => simp [jsFalsyNum]
  | posInf => simp [jsFalsyNum]
  | negInf => simp [jsFalsyNum]
  | fin q =>
    simp only [jsFalsyNum, beq_iff_eq]
    constructor
    · intro h
      exact Or.inr (by rw [h])
    · rintro (h | h)
      · exact absurd h (by simp)
      · injection h

/-! ## Claim theorems -/

/-- C1: for every row sequence whose fields are JSON-representable (`lora` a
string, `strength` a finite number, `on` a boolean), parsing the persisted
text produced by serialization yields the same row sequence:
`loadFrom(serialize(rows)) == rows`. -/
theorem C1_roundtrip (rows : List Row) :
    rowsOfJson (parseLoraData (.wellFormed (syncToWidget rows))) = some rows := by
  cases rows with
  | nil => rfl
  | cons r rs =>
    show rowsOfJson (parseLoraData (.wellFormed (.arr (rowToJson r :: rs.map rowToJson)))) = _
    rw [show parseLoraData (.wellFormed (.arr (rowToJson r :: rs.map rowToJson))) =
        .arr (rowToJson r :: rs.map rowToJson) from rfl]
    show decodeRows ((r :: rs).map rowToJson) = some (r :: rs)
    exact decodeRows_map_rowToJson (r :: rs)

/-- C6: for a persisted text that is absent (missing widget, `undefined` or
empty value) or fails to parse as JSON, `parseLoraData` resets the row
sequence to the empty sequence; the failure is caught (the model is a total
function), logged only, and never propagated. -/
theorem C6_parse_failure_resets :
    parseLoraData .absent = .arr [] ∧ parseLoraData .malformed = .arr [] :=
  ⟨rfl, rfl⟩

/-- C10: `parseLoraData` performs no shape validation: every well-formed JSON
value is installed verbatim as the row sequence (even objects, numbers, or
arrays of other shapes), and only a parse failure resets the state to the
empty sequence. -/
theorem C10_no_shape_validation :
    (∀ j : Json, parseLoraData (.wellFormed j) = j) ∧
      parseLoraData .malformed = .arr [] := by
  refine ⟨fun j => ?_, rfl⟩
  cases j with
  | null => rfl
  | bool b => rfl
  | num q => rfl
  | str s => rfl
  | arr es => cases es <;> rfl
  | obj fields => rfl

/-- C2 as stated is false on the code.  Concrete input: two rows with cached
displays `"x"` at index 0 and `"y"` at index 1; deleting row 0 (which has a
non-empty display) and then adding a row puts the new row at index 1, where
the stale entry `"y"` of the deleted state still sits, because
`delete node.triggerDisplays[index]` only removes the key of the deleted row
and never reindexes the larger keys. -/
theorem C2_counterexample :
    0 < ([defaultRow, defaultRow] : List Row).length ∧
    displayAt [(0, "x"), (1, "y")] 0 ≠ "" ∧
    displayAt (removeThenAdd [defaultRow, defaultRow] [(0, "x"), (1, "y")] 0).2
        ((removeThenAdd [defaultRow, defaultRow] [(0, "x"), (1, "y")] 0).1.length - 1)
      = "y" ∧ ("y" : String) ≠ "" := by
  refine ⟨by decide, by decide, rfl, by decide⟩

/-- C2 amended: after `removeRow` at index `i` (valid) followed by `addRow`,
the newly added row's trigger-display entry is empty exactly when the removed
index was the last one; otherwise it shows whatever entry (possibly stale and
non-empty) was previously cached at the old last index, since deletion drops
only the removed row's key and the remaining keys are not reindexed. -/
theorem C2_amended (rows : List Row) (td : List (Nat × String)) (i : Nat)
    (h : i < rows.length) :
    displayAt (removeThenAdd rows td i).2 ((removeThenAdd rows td i).1.length - 1) =
      if i = rows.length - 1 then "" else displayAt td (rows.length - 1) := by
  unfold removeThenAdd removeRow addRow
  have hlen : ((rows.eraseIdx i) ++ [defaultRow]).length - 1 = rows.length - 1 := by
    rw [List.length_append, List.length_eraseIdx]
    simp [h]
  rw [hlen]
  unfold displayAt
  rw [alGet_alErase]
  by_cases hi : rows.length - 1 = i
  · rw [if_pos hi, if_pos hi.symm]
    rfl
  · rw [if_neg hi, if_neg (fun hh => hi hh.symm)]

/-- Witness for C2_amended at the counterexample state: removing index 0 of
two rows leaves the (stale) entry of old index 1 visible on the new row. -/
theorem C2_amended_witness :
    0 < ([defaultRow, defaultRow] : List Row).length ∧
    displayAt (removeThenAdd [defaultRow, defaultRow] [(0, "x"), (1, "y")] 0).2
        ((removeThenAdd [defaultRow, defaultRow] [(0, "x"), (1, "y")] 0).1.length - 1) =
      if 0 = ([defaultRow, defaultRow] : List Row).length - 1 then ""
      else displayAt [(0, "x"), (1, "y")] (([defaultRow, defaultRow] : List Row).length - 1) :=
  ⟨by decide, C2_amended [defaultRow, defaultRow] [(0, "x"), (1, "y")] 0 (by decide)⟩

/-- C3 as stated is false on the code.  Concrete input: empty cache, folder
`"f"`, a successful fetch returning the empty listing.  The code stores
`data.loras || []` unconditionally on success, so the empty listing IS
written into the cache, and a second call for the same folder is served from
the cache: only one network request happens across the two calls (the claim
predicts a fresh request, i.e. two). -/
theorem C3_counterexample :
    (fetchLorasInFolder [] "f" (.ok (some []))).2.1 = [("f", [])] ∧
    (twoFolderFetches [] "f" (.ok (some [])) .err).2.2 = 1 :=
  ⟨rfl, rfl⟩

/-- C3 amended: a successful `fetchLorasInFolder` caches the returned listing
even when it is empty (an absent `loras` field is cached as `[]` as well), so
a later call for the same folder is answered from the cache without a new
request; only a failed fetch leaves the cache unwritten. -/
theorem C3_amended (cache : List (String × List String)) (folder : String)
    (loras : Option (List String)) (r2 : FolderResp)
    (h : alGet cache folder = none) :
    (fetchLorasInFolder cache folder (.ok loras)).2.1 =
        alSet cache folder (loras.getD []) ∧
    (twoFolderFetches cache folder (.ok loras) r2).2.2 = 1 := by
  unfold twoFolderFetches fetchLorasInFolder
  rw [h]
  simp [alGet_alSet_self]

/-- Witness for C3_amended: empty cache, folder `"f"`, successful empty
listing; the listing is cached and the pair of calls makes one request. -/
theorem C3_amended_witness :
    alGet ([] : List (String × List String)) "f" = none ∧
    (fetchLorasInFolder [] "f" (.ok (some []))).2.1 = alSet [] "f" ((some []).getD []) ∧
    (twoFolderFetches [] "f" (.ok (some [])) .err).2.2 = 1 :=
  ⟨rfl, C3_amended [] "f" (some []) .err rfl⟩

/-- C4 as stated is false on the code.  Concrete input: empty cache, id
`"a"`, and a server whose `trigger_word` is the non-empty blank string
`" "`.  The first call trims it to `""` and stores `""` in the cache; the
truthiness test `if (triggerCache[loraName])` then fails on the second call,
which issues a second network request: two calls in total, not one. -/
theorem C4_counterexample :
    (twoFetches [] [] 0 "a" (.ok (some " ")) (.ok (some " "))).2.2 = 2 ∧
    (fetchTriggerWord [] [] 0 "a" (.ok (some " "))).1 = [("a", "")] :=
  ⟨rfl, rfl⟩

/-- C4 amended: for an id that is neither empty nor `"None"`, starting from a
cache with no usable (non-empty) entry for it, if the first call succeeds
with a trigger word that is still non-empty after trimming, then the trimmed
word is written into the cache and shown by the first call, the second call
is served from the cache without a request, and exactly one network call
happens in total.  (On failure, or when the trigger is absent, empty, or
whitespace-only, nothing usable is cached and a repeated call fetches
again.) -/
theorem C4_amended (cache : List (String × String)) (td : List (Nat × String))
    (index : Nat) (loraName : String) (tw : String) (r2 : TriggerResp)
    (h1 : loraName ≠ "") (h2 : loraName ≠ "None")
    (h3 : (alGet cache loraName).getD "" = "")
    (h4 : jsTrim tw ≠ "") :
    (fetchTriggerWord cache td index loraName (.ok (some tw))).1 =
        alSet cache loraName (jsTrim tw) ∧
    (fetchTriggerWord cache td index loraName (.ok (some tw))).2.1 =
        alSet td index (jsTrim tw) ∧
    (twoFetches cache td index loraName (.ok (some tw)) r2).2.2 = 1 := by
  have htw : tw ≠ "" := by
    intro hcon
    rw [hcon] at h4
    exact h4 rfl
  have hsent : ¬(loraName = "" ∨ loraName = "None") := by
    rintro (hc | hc)
    · exact h1 hc
    · exact h2 hc
  have hfirst : fetchTriggerWord cache td index loraName (.ok (some tw)) =
      (alSet cache loraName (jsTrim tw), alSet td index (jsTrim tw), true) := by
    simp [fetchTriggerWord, hsent, h3, htw]
  refine ⟨by rw [hfirst], by rw [hfirst], ?_⟩
  simp [twoFetches, fetchTriggerWord, hsent, h3, htw, alGet_alSet_self, h4]

/-- Witness for C4_amended: id `"a"`, empty cache, trigger `" hi "`; the
trimmed word `"hi"` is cached and displayed and only one request is made. -/
theorem C4_amended_witness :
    ("a" : String) ≠ "" ∧ ("a" : String) ≠ "None" ∧
    (alGet ([] : List (String × String)) "a").getD "" = "" ∧
    jsTrim " hi " ≠ "" ∧
    (fetchTriggerWord [] [] 0 "a" (.ok (some " hi "))).1 = alSet [] "a" (jsTrim " hi ") ∧
    (fetchTriggerWord [] [] 0 "a" (.ok (some " hi "))).2.1 = alSet [] 0 (jsTrim " hi ") ∧
    (twoFetches [] [] 0 "a" (.ok (some " hi ")) .err).2.2 = 1 := by
  refine ⟨by decide, by decide, rfl, by decide, ?_⟩
  exact C4_amended [] [] 0 "a" " hi " .err (by decide) (by decide) rfl (by decide)

/-- C5: `fetchTriggerWord` on the empty id or the sentinel `"None"` sets the
row's display to the empty trigger word immediately, issues no network call,
and consults no cache entry: the result is the same for every cache and the
cache is returned untouched. -/
theorem C5_sentinel_no_fetch (cache : List (String × String))
    (td : List (Nat × String)) (index : Nat) (resp : TriggerResp) :
    fetchTriggerWord cache td index "" resp = (cache, alSet td index "", false) ∧
    fetchTriggerWord cache td index "None" resp = (cache, alSet td index "", false) := by
  constructor
  · unfold fetchTriggerWord
    rw [if_pos (Or.inl rfl)]
  · unfold fetchTriggerWord
    rw [if_pos (Or.inr rfl)]

/-- C7 as stated is false on the code.  Concrete input: 51 identical
candidates `"a"` and filter `"a"`.  All 51 candidates match the
case-insensitive substring test, but `filtered.slice(0, 50)` shows only the
first 50 (plus a non-selectable "... 1 more" indicator row). -/
theorem C7_counterexample :
    (List.replicate 51 "a").filter
        (fun lora => jsIncludes (jsToLower lora) (jsToLower "a")) =
      List.replicate 51 "a" ∧
    renderItems (List.replicate 51 "a") "a" = List.replicate 50 "a" :=
  ⟨rfl, rfl⟩

/-- C7 amended: whenever at most 50 candidates match, the dropdown's visible
item list (excluding the sentinel `"None"` entry) is exactly the candidates
whose lowercase form contains the lowercase filter as a substring, in their
original relative order; when more than 50 match, only the first 50 of them
are shown, with an overflow indicator. -/
theorem C7_amended (loraList : List String) (filter : String)
    (h : (loraList.filter
        (fun lora => jsIncludes (jsToLower lora) (jsToLower filter))).length ≤ 50) :
    renderItems loraList filter =
      loraList.filter (fun lora => jsIncludes (jsToLower lora) (jsToLower filter)) :=
  List.take_of_length_le h

/-- Witness for C7_amended at the claim's own example: filter `"abc"` over
`["abcd", "xyz", "ABCX"]` yields `["abcd", "ABCX"]`. -/
theorem C7_amended_witness :
    ((["abcd", "xyz", "ABCX"] : List String).filter
        (fun lora => jsIncludes (jsToLower lora) (jsToLower "abc"))).length ≤ 50 ∧
    renderItems ["abcd", "xyz", "ABCX"] "abc" =
      (["abcd", "xyz", "ABCX"] : List String).filter
        (fun lora => jsIncludes (jsToLower lora) (jsToLower "abc")) ∧
    renderItems ["abcd", "xyz", "ABCX"] "abc" = ["abcd", "ABCX"] :=
  ⟨by decide, C7_amended ["abcd", "xyz", "ABCX"] "abc" (by decide), by decide⟩

/-- C8: a query that is empty or consists only of whitespace makes
`performSearch` produce the "Please enter a search term" outcome with no
network call, for every category and every would-be server response. -/
theorem C8_empty_query_no_search (query category : String) (resp : SearchResp)
    (h : jsTrim query = "") :
    performSearch query category resp = (.enterTerm, false) := by
  unfold performSearch
  rw [if_pos h]

/-- Witness for C8 on the all-whitespace query `"   "`. -/
theorem C8_empty_query_no_search_witness :
    jsTrim "   " = "" ∧
    performSearch "   " "any" (.err "boom") = (.enterTerm, false) :=
  ⟨rfl, C8_empty_query_no_search "   " "any" (.err "boom") rfl⟩

/-- C9: the strength change handler stores `parseFloat(s)` when that value is
a nonzero number and `1.0` whenever it is NaN or 0; in particular entering
`"0"` stores `1.0`, and no input can ever store a strength of exactly 0. -/
theorem C9_strength_coercion (s : String) :
    (strengthOnChange s =
      if parseFloat s = .nan ∨ parseFloat s = .fin 0 then .fin 1 else parseFloat s) ∧
    strengthOnChange "0" = .fin 1 ∧
    strengthOnChange s ≠ .fin 0 := by
  have key : ∀ v : JNum, (if jsFalsyNum v = true then JNum.fin 1 else v) =
      if v = .nan ∨ v = .fin 0 then .fin 1 else v := by
    intro v
    by_cases hv : jsFalsyNum v = true
    · rw [if_pos hv, if_pos ((jsFalsyNum_eq_true_iff v).mp hv)]
    · rw [if_neg hv, if_neg (fun hc => hv ((jsFalsyNum_eq_true_iff v).mpr hc))]
  have hpf0 : parseFloat "0" = .fin 0 := by
    have hpf : parseFloat "0" =
        .fin (1 * ((digitsVal ['0'] : ℚ) + (digitsVal [] : ℚ) /
          (10 : ℚ) ^ (([] : List Char)).length) * (10 : ℚ) ^ (0 : ℤ)) := rfl
    have h48 : ('0').toNat - 48 = 0 := by decide
    rw [hpf]
    norm_num [digitsVal, h48]
  refine ⟨by unfold strengthOnChange; exact key (parseFloat s),
    by unfold strengthOnChange; rw [hpf0]; simp [jsFalsyNum], ?_⟩
  unfold strengthOnChange
  by_cases hv : jsFalsyNum (parseFloat s) = true
  · rw [if_pos hv]
    intro hc
    injection hc with h1
    exact one_ne_zero h1
  · rw [if_neg hv]
    intro hc
    exact hv ((jsFalsyNum_eq_true_iff _).mpr (Or.inr hc))
